import Mathlib

/-!
Shallow embedding of the geology_agent repository (src/agent.py and
src/app.py) for checking the natural-language specification.

Python strings are embedded as lists of characters ( `PyStr` ), so that
length, slicing and concatenation match Python character semantics.
The language model and the network are external capabilities; they are
embedded as explicit oracle parameters ( `ModelOracle` , `ToolExec` ,
`FetchOutcome` ) exactly at the boundary where agent.py calls into them.
The langgraph library constructs used by agent.py (the `add_messages`
reducer, `tools_condition` , `ToolNode` with its default error handling,
and the `MemorySaver` checkpointer) are embedded following their
documented behavior, since agent.py relies on them for its semantics.
-/

abbrev PyStr := List Char

def pyOf (s : String) : PyStr := s.data

/-- Python str.strip strips these ASCII whitespace characters (the
unicode whitespace Python also strips does not occur in the constants
of this program). -/
def isPySpace (c : Char) : Bool :=
  c = ' ' || c = '\t' || c = '\n' || c = '\r' || c = '\x0b' || c = '\x0c'

/-- Embedding of Python str.strip (agent.py uses it in validate_input
and in the scraper cleanup pipeline). -/
def pyStrip (s : PyStr) : PyStr :=
  ((s.dropWhile isPySpace).reverse.dropWhile isPySpace).reverse

/-- First argument is the pattern; embedding of Python str.startswith. -/
def pyStartsWith : PyStr → PyStr → Bool
  | [], _ => true
  | _ :: _, [] => false
  | p :: ps, c :: cs => p = c && pyStartsWith ps cs

-- ═══════════════════════════════════════════════════════════════════
-- Configuration constants (agent.py lines 23-25)
-- ═══════════════════════════════════════════════════════════════════

def MAX_INPUT_LENGTH : Nat := 10000

def WEB_SCRAPER_CHAR_LIMIT : Nat := 5000

def WEB_SCRAPER_TIMEOUT : Nat := 15

-- ═══════════════════════════════════════════════════════════════════
-- validate_input (agent.py lines 284-300)
-- ═══════════════════════════════════════════════════════════════════

/-- Embedding of validate_input. Returns (is_valid, error_message).
The f-string interpolation of MAX_INPUT_LENGTH = 10000 is resolved in
the literal. -/
def validate_input (userInput : PyStr) : Bool × PyStr :=
  if userInput = [] then
    (false, pyOf "Error: No input provided")
  else if pyStrip userInput = [] then
    (false, pyOf "Error: Input is empty or only whitespace")
  else if userInput.length > MAX_INPUT_LENGTH then
    (false, pyOf "Error: Input exceeds maximum length of 10000 characters")
  else
    (true, pyOf "")

-- ═══════════════════════════════════════════════════════════════════
-- web_scraper_tool (agent.py lines 152-202)
-- ═══════════════════════════════════════════════════════════════════

/-- Embedding of Python str.splitlines restricted to the ASCII line
terminators (newline, carriage return, the CRLF pair, vertical tab and
form feed); the rare unicode terminators are elided. As in Python, a
trailing terminator produces no trailing empty line. -/
def splitLinesGo : PyStr → PyStr → List PyStr
  | [], acc => [acc.reverse]
  | '\r' :: '\n' :: rest, acc =>
      acc.reverse :: (if rest = [] then [] else splitLinesGo rest [])
  | '\n' :: rest, acc =>
      acc.reverse :: (if rest = [] then [] else splitLinesGo rest [])
  | '\r' :: rest, acc =>
      acc.reverse :: (if rest = [] then [] else splitLinesGo rest [])
  | '\x0b' :: rest, acc =>
      acc.reverse :: (if rest = [] then [] else splitLinesGo rest [])
  | '\x0c' :: rest, acc =>
      acc.reverse :: (if rest = [] then [] else splitLinesGo rest [])
  | c :: rest, acc => splitLinesGo rest (c :: acc)

def pySplitLines (s : PyStr) : List PyStr :=
  match s with
  | [] => []
  | _ => splitLinesGo s []

/-- Embedding of Python str.split with the two-space separator used at
agent.py line 190: non-overlapping, left to right, no collapsing. -/
def splitTwoSpacesGo : PyStr → PyStr → List PyStr
  | [], acc => [acc.reverse]
  | ' ' :: ' ' :: rest, acc => acc.reverse :: splitTwoSpacesGo rest []
  | c :: rest, acc => splitTwoSpacesGo rest (c :: acc)

def splitTwoSpaces (s : PyStr) : List PyStr := splitTwoSpacesGo s []

/-- Whitespace cleanup of the scraped page text (agent.py lines 188-191):
strip every line, split each line on double spaces, strip each phrase,
keep the nonempty chunks and join them with newlines. -/
def cleanPipeline (text : PyStr) : PyStr :=
  let lines := (pySplitLines text).map pyStrip
  let chunks := (lines.map (fun line => (splitTwoSpaces line).map pyStrip)).flatten
  List.intercalate (pyOf "\n") (chunks.filter (fun c => !c.isEmpty))

/-- Truncation marker appended at agent.py line 195; the f-string
interpolation of WEB_SCRAPER_CHAR_LIMIT = 5000 is resolved. -/
def truncationMarker : PyStr :=
  pyOf "\n\n[Content truncated - showed first 5000 characters]"

/-- Character-limit step of the scraper (agent.py lines 194-197). -/
def limitScraperOutput (cleanText : PyStr) : PyStr :=
  if cleanText.length > WEB_SCRAPER_CHAR_LIMIT then
    cleanText.take WEB_SCRAPER_CHAR_LIMIT ++ truncationMarker
  else
    cleanText

/-- Outcome of the requests.get call plus BeautifulSoup text extraction,
treated as an external capability. A success carries the page text as
returned by soup.get_text after the decompose step; raise_for_status
failures surface as requests.RequestException and are covered by the
requestError case, as is any other requests-layer error. -/
inductive FetchOutcome
  | success (pageText : PyStr)
  | timeout
  | requestError (e : PyStr)
deriving DecidableEq

def invalidUrlMsg (url : PyStr) : PyStr :=
  pyOf "Invalid URL: " ++ url ++ pyOf ". URL must start with http:// or https://"

def timeoutMsg (url : PyStr) : PyStr :=
  pyOf "Error: Request timed out after 15 seconds for " ++ url

def fetchErrMsg (url e : PyStr) : PyStr :=
  pyOf "Error fetching " ++ url ++ pyOf ": " ++ e

def validScraperUrl (url : PyStr) : Bool :=
  pyStartsWith (pyOf "http://") url || pyStartsWith (pyOf "https://") url

/-- Embedding of web_scraper_tool (agent.py lines 152-202). The second
component of the result records whether a network request was issued;
the URL validation happens before any request, and every failure mode
is caught and rendered as a message string, never propagated. -/
def web_scraper_tool (url : PyStr) (fetch : FetchOutcome) : PyStr × Bool :=
  if validScraperUrl url = false then
    (invalidUrlMsg url, false)
  else
    match fetch with
    | FetchOutcome.timeout => (timeoutMsg url, true)
    | FetchOutcome.requestError e => (fetchErrMsg url e, true)
    | FetchOutcome.success raw => (limitScraperOutput (cleanPipeline raw), true)

-- ═══════════════════════════════════════════════════════════════════
-- Messages and the langgraph add_messages reducer (agent.py lines 247-248)
-- ═══════════════════════════════════════════════════════════════════

inductive Role
  | system
  | user
  | assistant
  | tool
deriving DecidableEq

/-- A tool-call request carried by an assistant message: tool name,
serialized arguments and the correlation id. -/
structure ToolCall where
  name : PyStr
  args : PyStr
  callId : Nat
deriving DecidableEq

/-- One conversation message. Ids model the langchain message uuids:
messages built from bare (role, content) tuples receive a fresh id when
the add_messages reducer runs. The isError flag models the status field
of a langgraph ToolMessage. -/
structure Msg where
  mid : Nat
  role : Role
  content : PyStr
  toolCalls : List ToolCall := []
  toolCallId : Option Nat := none
  isError : Bool := false
deriving DecidableEq

/-- Replace the first entry whose id matches (the ids of a stored
history are distinct uuids, so the first match is the only one). -/
def replaceById : List Msg → Msg → List Msg
  | [], _ => []
  | x :: xs, m => if x.mid = m.mid then m :: xs else x :: replaceById xs m

/-- One step of the add_messages merge: a right-hand message whose id
already occurs in the original left list replaces that entry in place,
any other message is appended. -/
def upsertStep (left : List Msg) (merged : List Msg) (m : Msg) : List Msg :=
  if left.any (fun x => x.mid == m.mid) then replaceById merged m
  else merged ++ [m]

/-- Embedding of the langgraph add_messages reducer declared on the
messages channel of State (agent.py lines 247-248): each right-hand
message upserts by id into the accumulated list. -/
def addMessages (left right : List Msg) : List Msg :=
  right.foldl (upsertStep left) left

-- ═══════════════════════════════════════════════════════════════════
-- External capabilities: the model and the tool executor
-- ═══════════════════════════════════════════════════════════════════

/-- Response of one llm.invoke call (agent.py line 263): an assistant
turn carrying text content and a possibly empty list of tool calls, or
an exception raised while talking to the model. -/
inductive ModelResp
  | reply (content : PyStr) (calls : List ToolCall)
  | failure (err : PyStr)

/-- The model capability as a function of the message list it is shown. -/
abbrev ModelOracle := List Msg → ModelResp

/-- Execution of one tool call by the registered tool functions: a
normal string result or a raised exception message. -/
abbrev ToolExec := ToolCall → Except PyStr PyStr

/-- Message of the RuntimeError raised by the chatbot node wrapper
(agent.py line 265). -/
def chatbotErrMsg (e : PyStr) : PyStr :=
  pyOf "Error in chatbot node: " ++ e

/-- Error chunk yielded by run_agent when the stream raises
(agent.py line 349). -/
def runtimeErrEvent (e : PyStr) : PyStr :=
  pyOf "\n\n❌ An error occurred: " ++ e

/-- Error content produced by the langgraph ToolNode default error
handler when a tool raises: the exception is captured and rendered into
the content of a ToolMessage whose status is error. -/
def toolErrorContent (e : PyStr) : PyStr :=
  pyOf "Error: " ++ e ++ pyOf "\n Please fix your mistakes."

/-- ToolNode behavior for a single tool call (agent.py line 270): a
raising tool yields an error-flagged ToolMessage instead of propagating;
a successful create_geological_images call additionally surfaces as an
on_tool_end event chunk (agent.py lines 343-346). -/
def execToolCall (texec : ToolExec) (c : ToolCall) (i : Nat) : Msg × List PyStr :=
  match texec c with
  | Except.ok out =>
      (⟨i, Role.tool, out, [], some c.callId, false⟩,
       if c.name = pyOf "create_geological_images" then
         [pyOf "Image created: " ++ out]
       else [])
  | Except.error e =>
      (⟨i, Role.tool, toolErrorContent e, [], some c.callId, true⟩, [])

/-- The tools node executes the requested calls in order, producing the
tool messages, the surfaced event chunks and the next fresh id. -/
def toolsNode (texec : ToolExec) : List ToolCall → Nat → List Msg × List PyStr × Nat
  | [], i => ([], [], i)
  | c :: rest, i =>
      let r := execToolCall texec c i
      let t := toolsNode texec rest (i + 1)
      (r.1 :: t.1, r.2 ++ t.2.1, t.2.2)

-- ═══════════════════════════════════════════════════════════════════
-- The graph loop (agent.py lines 251-278)
-- ═══════════════════════════════════════════════════════════════════

/-- Whether the streamed run terminated. The graph itself has no round
cap, so its execution is indexed by fuel (the number of chatbot rounds
allowed); unfinished means the fuel ran out with the loop still cycling. -/
inductive Outcome
  | completed
  | errored
  | unfinished
deriving DecidableEq

structure LoopResult where
  events : List PyStr
  outcome : Outcome
  messages : List Msg
  modelCalls : Nat
  toolRuns : Nat
deriving DecidableEq

/-- Default recursion limit of the langgraph executor used by
graph.astream_events: at most 25 super-steps (node executions) per run;
when a further node is pending after the budget is spent, the executor
raises GraphRecursionError. agent.py passes no recursion_limit in its
config, so the default applies. -/
def RECURSION_LIMIT : Nat := 25

/-- Message of the GraphRecursionError the executor raises when the
super-step budget is exhausted (the second sentence of the library
text, about raising the limit, is elided). -/
def graphRecursionErrMsg : PyStr :=
  pyOf "Recursion limit of 25 reached without hitting a stop condition."

/-- Embedding of the compiled graph run (entry point chatbot; the
conditional edge tools_condition routes to the tools node exactly when
the assistant message carries tool calls, else to END; the edge from
tools back to chatbot is unconditional — agent.py lines 268-275).
The second Nat argument is the remaining super-step budget from the
executor recursion limit: the chatbot node and the tools node each
consume one super-step, and a pending node with no budget left raises
GraphRecursionError, which the except clause of run_agent (agent.py
lines 348-350) surfaces as a single error chunk; the state of the
super-steps already completed stays checkpointed. The first Nat is
plain structural fuel bounding the modeled unfolding. Token streaming
is abstracted to one content chunk per model turn, yielded only when
nonempty, as in the on_chat_model_stream handler (agent.py
lines 337-340). A model exception likewise aborts the stream with a
single error chunk and no state update for that step; messages carries
the state checkpointed so far. -/
def agentLoop (model : ModelOracle) (texec : ToolExec) :
    Nat → Nat → List Msg → Nat → Nat → Nat → List PyStr → LoopResult
  | 0, _, msgs, _, mC, tC, evs => ⟨evs, Outcome.unfinished, msgs, mC, tC⟩
  | _ + 1, 0, msgs, _, mC, tC, evs =>
      ⟨evs ++ [runtimeErrEvent graphRecursionErrMsg], Outcome.errored, msgs,
       mC, tC⟩
  | fuel + 1, rem + 1, msgs, i, mC, tC, evs =>
    match model msgs with
    | ModelResp.failure e =>
        ⟨evs ++ [runtimeErrEvent (chatbotErrMsg e)], Outcome.errored, msgs,
         mC + 1, tC⟩
    | ModelResp.reply content calls =>
        let asst : Msg := ⟨i, Role.assistant, content, calls, none, false⟩
        let evs1 := evs ++ (if content = [] then [] else [content])
        if calls = [] then
          ⟨evs1, Outcome.completed, msgs ++ [asst], mC + 1, tC⟩
        else
          match rem with
          | 0 =>
              ⟨evs1 ++ [runtimeErrEvent graphRecursionErrMsg], Outcome.errored,
               msgs ++ [asst], mC + 1, tC⟩
          | rem2 + 1 =>
              let t := toolsNode texec calls (i + 1)
              agentLoop model texec fuel rem2 ((msgs ++ [asst]) ++ t.1) t.2.2
                (mC + 1) (tC + calls.length) (evs1 ++ t.2.1)

-- ═══════════════════════════════════════════════════════════════════
-- Conversation state store: MemorySaver checkpoints keyed by thread_id
-- ═══════════════════════════════════════════════════════════════════

abbrev Store := List (String × List Msg)

/-- History retrieval (graph.get_state at agent.py lines 323-324):
lookup of the first checkpoint entry for the thread, empty history for
an unknown thread. -/
def getHistory : Store → String → List Msg
  | [], _ => []
  | p :: rest, tid => if p.1 == tid then p.2 else getHistory rest tid

/-- Checkpoint write for one thread. -/
def setHistory (store : Store) (tid : String) (msgs : List Msg) : Store :=
  if store.any (fun p => p.1 == tid) then
    store.map (fun p => if p.1 == tid then (tid, msgs) else p)
  else
    store ++ [(tid, msgs)]

-- ═══════════════════════════════════════════════════════════════════
-- run_agent (agent.py lines 302-350)
-- ═══════════════════════════════════════════════════════════════════

/-- The system prompt constant (agent.py lines 31-136). Only its first
line is reproduced: the claims never inspect the prompt text, which the
spec classifies as configuration data, not behavior. -/
def SYSTEM_PROMPT : PyStr :=
  pyOf "You are Rocky, an AI assistant specializing in Geology and Earth Sciences."

structure AgentResult where
  events : List PyStr
  outcome : Outcome
  store : Store
  modelCalls : Nat
  toolRuns : Nat
deriving DecidableEq

/-- Working state after the input write: run_agent resends the fresh
system prompt, the stored history and the new user message (agent.py
line 327), and langgraph merges that input into the checkpointed state
through the add_messages reducer. idSupply and idSupply + 1 are the
fresh uuids assigned to the bare system and user tuples. -/
def initialMessages (store : Store) (tid : String) (userInput : PyStr)
    (idSupply : Nat) : List Msg :=
  let history := getHistory store tid
  addMessages history
    ([⟨idSupply, Role.system, SYSTEM_PROMPT, [], none, false⟩] ++ history ++
     [⟨idSupply + 1, Role.user, userInput, [], none, false⟩])

/-- Embedding of run_agent: validation happens before any graph call
(agent.py lines 313-317); otherwise the merged working state is run
through the graph loop under the default executor recursion limit, and
the final checkpoint is what the store retains for the thread. -/
def run_agent (model : ModelOracle) (texec : ToolExec) (fuel : Nat)
    (store : Store) (threadId : String) (userInput : PyStr)
    (idSupply : Nat) : AgentResult :=
  let v := validate_input userInput
  if v.1 then
    let state0 := initialMessages store threadId userInput idSupply
    let r := agentLoop model texec fuel RECURSION_LIMIT state0 (idSupply + 2) 0 0 []
    ⟨r.events, r.outcome, setHistory store threadId r.messages, r.modelCalls, r.toolRuns⟩
  else
    ⟨[v.2], Outcome.completed, store, 0, 0⟩

-- ═══════════════════════════════════════════════════════════════════
-- HTTP layer (src/app.py)
-- ═══════════════════════════════════════════════════════════════════

/-- One server-sent-event frame produced by event_stream (app.py
lines 36-63), by its type tag and payload. -/
inductive Frame
  | start (threadId : String)
  | content (chunk : PyStr)
  | error (e : PyStr)
  | endFrame
deriving DecidableEq

/-- Thread id selection (app.py line 34): Python `or` falls through to
the generated uuid when thread_id is absent or falsy, and the empty
string is falsy. -/
def chooseThreadId (reqThreadId : Option String) (freshUuid : String) : String :=
  match reqThreadId with
  | none => freshUuid
  | some t => if t = "" then freshUuid else t

/-- Outcome of collecting the chunks of run_agent inside the executor
(app.py lines 45-51). run_agent is declared `async def` with yields
(agent.py line 302), so calling it returns an asynchronous generator;
the synchronous `for chunk in run_agent(...)` at app.py line 47 raises
TypeError before obtaining any chunk, and that exception propagates out
of the awaited executor future. The quote marks CPython puts around the
type name in the message are elided here. -/
def run_sync_agent : Except PyStr (List PyStr) :=
  Except.error (pyOf "async_generator object is not iterable")

/-- Frame sequence of event_stream (app.py lines 36-63) as a function
of the collected-chunks outcome: the start frame is yielded first; when
collection succeeds every chunk becomes one content frame in order and
an end frame closes the stream; an exception anywhere is caught and
rendered as a single error frame that terminates the stream. -/
def event_stream (threadId : String) (collected : Except PyStr (List PyStr)) :
    List Frame :=
  match collected with
  | Except.error e => [Frame.start threadId, Frame.error e]
  | Except.ok chunks =>
      [Frame.start threadId] ++ chunks.map Frame.content ++ [Frame.endFrame]

/-- The POST /chat handler (app.py lines 32-73): choose the thread id,
then stream the frames of event_stream over the result of collecting
run_agent in the executor. -/
def chat (reqThreadId : Option String) (freshUuid : String) : List Frame :=
  event_stream (chooseThreadId reqThreadId freshUuid) run_sync_agent

-- ═══════════════════════════════════════════════════════════════════
-- Concrete model and tool behaviors used to instantiate the oracles
-- ═══════════════════════════════════════════════════════════════════

/-- A model that always answers with plain text and no tool calls. -/
def trivialModel : ModelOracle := fun _ => ModelResp.reply (pyOf "ok") []

/-- A tool executor that always succeeds. -/
def trivialExec : ToolExec := fun _ => Except.ok (pyOf "out")

/-- A model that greets and never requests tools. -/
def helloModel : ModelOracle := fun _ => ModelResp.reply (pyOf "Hello") []

/-- A model answering the quartz scenario of the spec with no tools. -/
def quartzModel : ModelOracle :=
  fun _ => ModelResp.reply (pyOf "Quartz is a mineral.") []

/-- A pathological model that requests one search tool call on every
invocation. -/
def perpetualToolModel : ModelOracle :=
  fun _ => ModelResp.reply [] [⟨pyOf "tavily_search_results_json", pyOf "q", 0⟩]

/-- A single concrete tool call, used with a failing executor. -/
def failCall : ToolCall := ⟨pyOf "web_scraper_tool", pyOf "u", 3⟩

/-- A model that requests exactly the failing tool call. -/
def oneToolModel : ModelOracle := fun _ => ModelResp.reply [] [failCall]

/-- A tool executor that always raises. -/
def failingExec : ToolExec := fun _ => Except.error (pyOf "boom")

/-- A model that requests one search tool call on its first invocation
and answers plainly once a tool result is the latest message. -/
def toolThenAnswerModel : ModelOracle := fun msgs =>
  match msgs.getLast? with
  | some m =>
      if m.role = Role.tool then
        ModelResp.reply (pyOf "Obsidian is volcanic glass.") []
      else
        ModelResp.reply [] [⟨pyOf "tavily_search_results_json", pyOf "obsidian", 5⟩]
  | none => ModelResp.reply [] [⟨pyOf "tavily_search_results_json", pyOf "obsidian", 5⟩]

/-- A page body longer than the scraper character budget. -/
def longPage : PyStr := List.replicate 5001 'a'

-- ═══════════════════════════════════════════════════════════════════
-- Helper lemmas
-- ═══════════════════════════════════════════════════════════════════

/-- An input that is empty, whitespace-only or over-length fails
validation. -/
theorem validate_input_false_of_invalid (userInput : PyStr)
    (h : userInput = [] ∨ pyStrip userInput = [] ∨
      userInput.length > MAX_INPUT_LENGTH) :
    (validate_input userInput).1 = false := by
  unfold validate_input
  rcases h with h | h | h
  · simp [h]
  · by_cases h0 : userInput = [] <;> simp [h0, h]
  · by_cases h0 : userInput = []
    · simp [h0]
    · by_cases h1 : pyStrip userInput = [] <;> simp [h0, h1, h]

/-- With fuel past half the remaining super-step budget, the graph run
reaches a terminal outcome for every model and tool behavior: each
modeled iteration consumes two super-steps, so the recursion limit
stops any run the model and the tools do not stop first. -/
theorem agentLoop_terminal_of_budget (model : ModelOracle) (texec : ToolExec) :
    ∀ (fuel rem : Nat) (msgs : List Msg) (i mC tC : Nat) (evs : List PyStr),
    rem + 1 ≤ 2 * fuel →
    (agentLoop model texec fuel rem msgs i mC tC evs).outcome =
        Outcome.completed ∨
    (agentLoop model texec fuel rem msgs i mC tC evs).outcome =
        Outcome.errored := by
  intro fuel
  induction fuel with
  | zero => intro rem msgs i mC tC evs h; omega
  | succ f ih =>
    intro rem msgs i mC tC evs h
    cases rem with
    | zero => right; simp [agentLoop]
    | succ r =>
      cases hm : model msgs with
      | failure e => right; simp [agentLoop, hm]
      | reply content calls =>
        by_cases hc : calls = []
        · left; simp [agentLoop, hm, hc]
        · cases r with
          | zero => right; simp [agentLoop, hm, hc]
          | succ r2 =>
            simp only [agentLoop, hm, if_neg hc]
            exact ih r2 _ _ _ _ _ (by omega)

/-- Under the perpetually tool-requesting model the recursion limit is
the only stop: with fuel past half the remaining budget the run ends in
the errored outcome (the surfaced GraphRecursionError). -/
theorem agentLoop_perpetual_errored (texec : ToolExec) :
    ∀ (fuel rem : Nat) (msgs : List Msg) (i mC tC : Nat) (evs : List PyStr),
    rem + 1 ≤ 2 * fuel →
    (agentLoop perpetualToolModel texec fuel rem msgs i mC tC evs).outcome =
      Outcome.errored := by
  intro fuel
  induction fuel with
  | zero => intro rem msgs i mC tC evs h; omega
  | succ f ih =>
    intro rem msgs i mC tC evs h
    cases rem with
    | zero => simp [agentLoop]
    | succ r =>
      cases r with
      | zero => simp [agentLoop, perpetualToolModel]
      | succ r2 =>
        simp only [agentLoop, perpetualToolModel, reduceCtorEq, if_false]
        exact ih r2 _ _ _ _ _ (by omega)

/-- Under the perpetually tool-requesting model, run_agent on the valid
input hi ends in the errored outcome once the fuel covers the 13 model
rounds the 25-step recursion limit admits. -/
theorem run_agent_perpetual_errored (texec : ToolExec) (fuel : Nat)
    (store : Store) (tid : String) (ids : Nat) (h : 13 ≤ fuel) :
    (run_agent perpetualToolModel texec fuel store tid (pyOf "hi") ids).outcome =
      Outcome.errored := by
  have hv : (validate_input (pyOf "hi")).1 = true := by decide
  simp only [run_agent, hv, if_true]
  exact agentLoop_perpetual_errored texec fuel RECURSION_LIMIT _ _ _ _ _
    (by unfold RECURSION_LIMIT; omega)

/-- Replacing a message of a duplicate-free list by itself leaves the
list unchanged. -/
theorem replaceById_self : ∀ (l : List Msg) (m : Msg),
    (l.map Msg.mid).Nodup → m ∈ l → replaceById l m = l := by
  intro l
  induction l with
  | nil => intro m _ hm; cases hm
  | cons x xs ih =>
    intro m hnd hm
    have hnd2 : (∀ y ∈ xs, ¬ y.mid = x.mid) ∧ (xs.map Msg.mid).Nodup := by
      simpa using hnd
    rcases List.mem_cons.mp hm with rfl | hmem
    · simp [replaceById]
    · have hx : ¬ x.mid = m.mid := fun hEq => hnd2.1 m hmem hEq.symm
      simp [replaceById, hx, ih m hnd2.2 hmem]

/-- A fold whose step fixes the accumulator on every element of the
list returns the accumulator. -/
theorem foldl_fixed_of_mem {α β : Type} (f : β → α → β) (b : β) :
    ∀ (l : List α), (∀ a ∈ l, f b a = b) → l.foldl f b = b := by
  intro l
  induction l with
  | nil => intro _; rfl
  | cons x xs ih =>
    intro h
    rw [List.foldl_cons, h x (List.mem_cons_self x xs)]
    exact ih (fun a ha => h a (List.mem_cons_of_mem x ha))

/-- Resending the stored history together with a fresh system and a
fresh user message through the add_messages reducer appends exactly the
system and the user message: the history entries upsert onto themselves
in place. -/
theorem addMessages_resend (history : List Msg) (sysM userM : Msg)
    (hnd : (history.map Msg.mid).Nodup)
    (hsys : ∀ m ∈ history, m.mid ≠ sysM.mid)
    (husr : ∀ m ∈ history, m.mid ≠ userM.mid) :
    addMessages history ([sysM] ++ history ++ [userM]) =
      history ++ [sysM, userM] := by
  have hanyS : history.any (fun x => x.mid == sysM.mid) = false := by
    rw [List.any_eq_false]
    intro x hx
    simp [hsys x hx]
  have hanyU : history.any (fun x => x.mid == userM.mid) = false := by
    rw [List.any_eq_false]
    intro x hx
    simp [husr x hx]
  have hndS : ((history ++ [sysM]).map Msg.mid).Nodup := by
    rw [List.map_append, List.nodup_append]
    refine ⟨hnd, by simp, ?_⟩
    intro a ha hb
    simp only [List.map_cons, List.map_nil, List.mem_singleton] at hb
    rcases List.mem_map.mp ha with ⟨m, hm, rfl⟩
    exact hsys m hm hb
  unfold addMessages
  rw [List.foldl_append, List.foldl_append]
  have h1 : List.foldl (upsertStep history) history [sysM] = history ++ [sysM] := by
    simp [upsertStep, hanyS]
  rw [h1]
  have h2 : List.foldl (upsertStep history) (history ++ [sysM]) history =
      history ++ [sysM] := by
    refine foldl_fixed_of_mem _ _ _ ?_
    intro m hm
    have hany : history.any (fun x => x.mid == m.mid) = true := by
      rw [List.any_eq_true]
      exact ⟨m, hm, by simp⟩
    simp only [upsertStep, hany, if_true]
    exact replaceById_self _ m hndS (List.mem_append_left _ hm)
  rw [h2]
  simp [upsertStep, hanyU]

/-- Writing a thread that had no checkpoint entry appends one at the
end and makes it retrievable. -/
theorem getHistory_append_of_absent (tid : String) (msgs : List Msg) :
    ∀ (store : Store), store.any (fun p => p.1 == tid) = false →
      getHistory (store ++ [(tid, msgs)]) tid = msgs := by
  intro store
  induction store with
  | nil => intro _; simp [getHistory]
  | cons p rest ih =>
    intro h
    have hp : (p.1 == tid) = false := by
      have := List.any_eq_false.mp h p (List.mem_cons_self p rest)
      simpa using this
    have hrest : rest.any (fun q => q.1 == tid) = false := by
      rw [List.any_eq_false]
      intro q hq
      exact List.any_eq_false.mp h q (List.mem_cons_of_mem p hq)
    simp only [List.cons_append, getHistory, hp]
    simp only [Bool.false_eq_true, if_false]
    exact ih hrest

/-- Overwriting the checkpoint entries of a present thread makes the
new history retrievable. -/
theorem getHistory_map_of_present (tid : String) (msgs : List Msg) :
    ∀ (store : Store), store.any (fun p => p.1 == tid) = true →
      getHistory (store.map (fun p => if p.1 == tid then (tid, msgs) else p)) tid =
        msgs := by
  intro store
  induction store with
  | nil => intro h; cases h
  | cons p rest ih =>
    intro h
    cases hp : (p.1 == tid) with
    | true =>
      simp [getHistory, hp]
    | false =>
      have hrest : rest.any (fun q => q.1 == tid) = true := by
        rcases List.any_eq_true.mp h with ⟨q, hq, hqt⟩
        rcases List.mem_cons.mp hq with rfl | hq2
        · exact absurd hqt (by simp [hp])
        · exact List.any_eq_true.mpr ⟨q, hq2, hqt⟩
      simp only [List.map_cons, hp, Bool.false_eq_true, if_false, getHistory]
      exact ih hrest

/-- Retrieving a thread right after writing it returns what was
written. -/
theorem getHistory_setHistory (store : Store) (tid : String) (msgs : List Msg) :
    getHistory (setHistory store tid msgs) tid = msgs := by
  unfold setHistory
  cases hany : store.any (fun p => p.1 == tid) with
  | true =>
    simp only [hany, if_true]
    exact getHistory_map_of_present tid msgs store hany
  | false =>
    simp only [hany, Bool.false_eq_true, if_false]
    exact getHistory_append_of_absent tid msgs store hany

-- ═══════════════════════════════════════════════════════════════════
-- Claim theorems
-- ═══════════════════════════════════════════════════════════════════

/-- Claim C1 (code evaluation): the system prompt IS persisted into the
stored history, contrary to the claim. On a fresh thread, one completed
run_agent call with a model that answers plainly leaves a history whose
roles are [system, user, assistant]: the resent fresh-id system prompt
is appended by the add_messages reducer and checkpointed by MemorySaver,
so the stored history for the thread contains a system-role message. -/
theorem c1_system_prompt_persisted :
    (run_agent helloModel trivialExec 1 [] "t1" (pyOf "hi") 0).outcome =
      Outcome.completed ∧
    (getHistory (run_agent helloModel trivialExec 1 [] "t1" (pyOf "hi") 0).store
        "t1").map Msg.role = [Role.system, Role.user, Role.assistant] := by
  exact ⟨rfl, rfl⟩

/-- Claim C2 (code evaluation): the POST /chat stream never carries a
content frame. run_agent is an asynchronous generator and app.py
iterates it with a synchronous for loop, so collecting chunks raises
TypeError and every request streams exactly a start frame followed by
an error frame — even though run_agent itself, iterated as the
asynchronous generator it is, yields the answer chunk. -/
theorem c2_stream_never_carries_content :
    chat none "t1" =
      [Frame.start "t1",
       Frame.error (pyOf "async_generator object is not iterable")] ∧
    (run_agent quartzModel trivialExec 1 [] "t1" (pyOf "What is quartz?") 0).events =
      [pyOf "Quartz is a mineral."] := by
  exact ⟨rfl, rfl⟩

/-- Claim C3: an empty, whitespace-only or over-length input makes
run_agent yield exactly the one validation error message and stop, with
zero model calls, zero tool calls, and the store untouched. -/
theorem c3_invalid_input_fast_fail (model : ModelOracle) (texec : ToolExec)
    (fuel : Nat) (store : Store) (tid : String) (userInput : PyStr) (ids : Nat)
    (h : userInput = [] ∨ pyStrip userInput = [] ∨
      userInput.length > MAX_INPUT_LENGTH) :
    run_agent model texec fuel store tid userInput ids =
      ⟨[(validate_input userInput).2], Outcome.completed, store, 0, 0⟩ := by
  have hv := validate_input_false_of_invalid userInput h
  simp [run_agent, hv]

/-- Witness for C3 at the empty input of the spec scenario. -/
theorem c3_witness :
    (([] : PyStr) = [] ∨ pyStrip [] = [] ∨
      List.length ([] : PyStr) > MAX_INPUT_LENGTH) ∧
    run_agent trivialModel trivialExec 1 [] "t1" [] 0 =
      ⟨[(validate_input []).2], Outcome.completed, [], 0, 0⟩ :=
  ⟨Or.inl rfl,
   c3_invalid_input_fast_fail trivialModel trivialExec 1 [] "t1" [] 0 (Or.inl rfl)⟩

/-- Counterexample to claim C5 as stated: the claimed nonterminating
model behavior — a model that requests a tool call on every
invocation — does not make run_agent run forever. The executor default
recursion limit of 25 super-steps stops it: the run reaches the
terminal errored outcome, its only event the surfaced
GraphRecursionError chunk, after 13 model invocations and 12 tool
rounds. -/
theorem c5_counterexample :
    (run_agent perpetualToolModel trivialExec 13 [] "t1" (pyOf "hi") 0).outcome =
      Outcome.errored ∧
    (run_agent perpetualToolModel trivialExec 13 [] "t1" (pyOf "hi") 0).events =
      [runtimeErrEvent graphRecursionErrMsg] ∧
    (run_agent perpetualToolModel trivialExec 13 [] "t1" (pyOf "hi") 0).modelCalls =
      13 ∧
    (run_agent perpetualToolModel trivialExec 13 [] "t1" (pyOf "hi") 0).toolRuns =
      12 := by
  exact ⟨rfl, rfl, rfl, rfl⟩

/-- Claim C5 (amended): the repository wires the chatbot-to-tools
alternation as an unconditional cycle with no counter of its own, but
the langgraph executor enforces its default recursion limit of 25
super-steps, so the perpetually tool-requesting model does not loop
forever: once the fuel covers the 13 model rounds the limit admits, the
run ends in the errored outcome, surfacing GraphRecursionError as an
error event. -/
theorem c5_recursion_limit_stops_perpetual (texec : ToolExec) (fuel : Nat)
    (store : Store) (tid : String) (ids : Nat) (h : 13 ≤ fuel) :
    (run_agent perpetualToolModel texec fuel store tid (pyOf "hi") ids).outcome =
      Outcome.errored :=
  run_agent_perpetual_errored texec fuel store tid ids h

/-- Witness for C5 (amended) at fuel 13 on a second thread. -/
theorem c5_witness :
    13 ≤ 13 ∧
    (run_agent perpetualToolModel trivialExec 13 [] "t2" (pyOf "hi") 0).outcome =
      Outcome.errored :=
  ⟨by decide,
   c5_recursion_limit_stops_perpetual trivialExec 13 [] "t2" 0 (by decide)⟩

/-- Claim C6: for every valid user_input, any thread_id and every model
and tool behavior, run_agent reaches a terminal outcome — a completed
stream or an explicit error event — once the fuel covers the 13 model
rounds the 25-super-step recursion limit admits. The bound is uniform
in the model: no behavior produces an unterminated silent stream. -/
theorem c6_liveness_terminal (model : ModelOracle) (texec : ToolExec)
    (fuel : Nat) (store : Store) (tid : String) (userInput : PyStr) (ids : Nat)
    (hv : (validate_input userInput).1 = true) (hf : 13 ≤ fuel) :
    (run_agent model texec fuel store tid userInput ids).outcome =
        Outcome.completed ∨
    (run_agent model texec fuel store tid userInput ids).outcome =
        Outcome.errored := by
  simp only [run_agent, hv, if_true]
  exact agentLoop_terminal_of_budget model texec fuel RECURSION_LIMIT _ _ _ _ _
    (by unfold RECURSION_LIMIT; omega)

/-- Witness for C6 at a concrete valid input and the plain-answer
model. -/
theorem c6_liveness_witness :
    (validate_input (pyOf "hi")).1 = true ∧
    13 ≤ 13 ∧
    ((run_agent trivialModel trivialExec 13 [] "t1" (pyOf "hi") 0).outcome =
        Outcome.completed ∨
     (run_agent trivialModel trivialExec 13 [] "t1" (pyOf "hi") 0).outcome =
        Outcome.errored) :=
  ⟨by decide, by decide,
   c6_liveness_terminal trivialModel trivialExec 13 [] "t1" (pyOf "hi") 0
     (by decide) (by decide)⟩

/-- Claim C4: a failing tool invocation never aborts the loop. The
ToolNode handler turns the raised exception into an error-flagged tool
message carrying the captured error text, and the unconditional edge
from tools back to chatbot makes the loop recurse into another model
invocation (AWAITING_MODEL) rather than stopping in an errored state;
the chatbot and tools super-steps each consume one unit of the
remaining executor budget. -/
theorem c4_tool_failure_isolated (model : ModelOracle) (texec : ToolExec)
    (fuel rem : Nat) (msgs : List Msg) (i mC tC : Nat) (evs : List PyStr)
    (c : ToolCall) (content : PyStr) (e : PyStr)
    (hm : model msgs = ModelResp.reply content [c])
    (he : texec c = Except.error e) :
    (execToolCall texec c (i + 1)).1.isError = true ∧
    (execToolCall texec c (i + 1)).1.content = toolErrorContent e ∧
    agentLoop model texec (fuel + 1) (rem + 1 + 1) msgs i mC tC evs =
      agentLoop model texec fuel rem
        ((msgs ++ [⟨i, Role.assistant, content, [c], none, false⟩]) ++
          [(execToolCall texec c (i + 1)).1])
        (i + 2) (mC + 1) (tC + 1)
        (evs ++ (if content = [] then [] else [content])) := by
  refine ⟨by simp [execToolCall, he], by simp [execToolCall, he], ?_⟩
  simp [agentLoop, toolsNode, execToolCall, hm, he]

/-- Witness for C4: a model requesting one call of a tool that always
raises. -/
theorem c4_witness :
    oneToolModel [] = ModelResp.reply [] [failCall] ∧
    failingExec failCall = Except.error (pyOf "boom") ∧
    (execToolCall failingExec failCall (0 + 1)).1.isError = true ∧
    (execToolCall failingExec failCall (0 + 1)).1.content =
      toolErrorContent (pyOf "boom") ∧
    agentLoop oneToolModel failingExec (0 + 1) (0 + 1 + 1) [] 0 0 0 [] =
      agentLoop oneToolModel failingExec 0 0
        (([] ++ [⟨0, Role.assistant, [], [failCall], none, false⟩]) ++
          [(execToolCall failingExec failCall (0 + 1)).1])
        (0 + 2) (0 + 1) (0 + 1)
        ([] ++ (if ([] : PyStr) = [] then [] else [([] : PyStr)])) :=
  ⟨rfl, rfl,
   c4_tool_failure_isolated oneToolModel failingExec 0 0 [] 0 0 0 [] failCall []
     (pyOf "boom") rfl rfl⟩

/-- Counterexample to claim C7 as stated: a turn that completes
successfully but passes through one tool round stores a history whose
last two entries are the tool-result message and the final assistant
message — the submitted user message is not the penultimate entry, its
role is tool, refuting the claim for Done turns in general. -/
theorem c7_counterexample :
    (run_agent toolThenAnswerModel trivialExec 2 [] "t1" (pyOf "hi") 0).outcome =
      Outcome.completed ∧
    (getHistory
        (run_agent toolThenAnswerModel trivialExec 2 [] "t1" (pyOf "hi") 0).store
        "t1").map Msg.role =
      [Role.system, Role.user, Role.assistant, Role.tool, Role.assistant] := by
  exact ⟨rfl, rfl⟩

/-- Claim C7 (amended): when a turn completes with the model answering
plainly on its first invocation — so no tool round occurred in the
turn — the history stored for the thread is the previous history
extended by the fresh system prompt, the submitted user message and the
produced assistant message: its last two entries are the user message
and the assistant message, in that order. Turns that pass through tool
rounds instead end with the tool messages before the assistant answer.
The hypotheses say that the stored ids are distinct uuids and that the
id supply is fresh, which uuid4 guarantees in the source. -/
theorem c7_round_trip (model : ModelOracle) (texec : ToolExec)
    (fuel : Nat) (store : Store) (tid : String) (userInput : PyStr)
    (ids : Nat) (content : PyStr)
    (hv : (validate_input userInput).1 = true)
    (hnd : ((getHistory store tid).map Msg.mid).Nodup)
    (hfresh : ∀ m ∈ getHistory store tid, m.mid < ids)
    (hm : model (initialMessages store tid userInput ids) =
      ModelResp.reply content []) :
    (run_agent model texec (fuel + 1) store tid userInput ids).outcome =
      Outcome.completed ∧
    getHistory (run_agent model texec (fuel + 1) store tid userInput ids).store
        tid =
      getHistory store tid ++
        [⟨ids, Role.system, SYSTEM_PROMPT, [], none, false⟩,
         ⟨ids + 1, Role.user, userInput, [], none, false⟩,
         ⟨ids + 2, Role.assistant, content, [], none, false⟩] := by
  have hinit : initialMessages store tid userInput ids =
      getHistory store tid ++
        [⟨ids, Role.system, SYSTEM_PROMPT, [], none, false⟩,
         ⟨ids + 1, Role.user, userInput, [], none, false⟩] := by
    unfold initialMessages
    exact addMessages_resend _ _ _ hnd
      (fun m hm2 => Nat.ne_of_lt (hfresh m hm2))
      (fun m hm2 => Nat.ne_of_lt (Nat.lt_succ_of_lt (hfresh m hm2)))
  have hlim : RECURSION_LIMIT = 24 + 1 := rfl
  have hloop : agentLoop model texec (fuel + 1) RECURSION_LIMIT
      (initialMessages store tid userInput ids) (ids + 2) 0 0 [] =
      ⟨(if content = [] then [] else [content]), Outcome.completed,
       initialMessages store tid userInput ids ++
         [⟨ids + 2, Role.assistant, content, [], none, false⟩], 1, 0⟩ := by
    rw [hlim]
    simp [agentLoop, hm]
  simp only [run_agent, hv, if_true, hloop]
  refine ⟨trivial, ?_⟩
  rw [getHistory_setHistory, hinit]
  simp

/-- Witness for C7 on a fresh thread and a model answering Hello. -/
theorem c7_witness :
    (validate_input (pyOf "hi")).1 = true ∧
    ((getHistory [] "t1").map Msg.mid).Nodup ∧
    (∀ m ∈ getHistory [] "t1", m.mid < 0) ∧
    helloModel (initialMessages [] "t1" (pyOf "hi") 0) =
      ModelResp.reply (pyOf "Hello") [] ∧
    (run_agent helloModel trivialExec (0 + 1) [] "t1" (pyOf "hi") 0).outcome =
      Outcome.completed ∧
    getHistory
        (run_agent helloModel trivialExec (0 + 1) [] "t1" (pyOf "hi") 0).store
        "t1" =
      getHistory [] "t1" ++
        [⟨0, Role.system, SYSTEM_PROMPT, [], none, false⟩,
         ⟨0 + 1, Role.user, pyOf "hi", [], none, false⟩,
         ⟨0 + 2, Role.assistant, pyOf "Hello", [], none, false⟩] := by
  have h := c7_round_trip helloModel trivialExec 0 [] "t1" (pyOf "hi") 0
    (pyOf "Hello") (by decide) (by decide) (by decide) rfl
  exact ⟨by decide, by decide, by decide, rfl, h.1, h.2⟩

/-- Claim C8: on a successful fetch, a cleaned text longer than the
5000-character budget is returned as exactly its first 5000 characters
with the truncation marker appended, and a cleaned text within the
budget is returned unchanged, with no marker. -/
theorem c8_truncation (url raw : PyStr) (hurl : validScraperUrl url = true) :
    ((cleanPipeline raw).length > WEB_SCRAPER_CHAR_LIMIT →
      (web_scraper_tool url (FetchOutcome.success raw)).1 =
        (cleanPipeline raw).take WEB_SCRAPER_CHAR_LIMIT ++ truncationMarker) ∧
    ((cleanPipeline raw).length ≤ WEB_SCRAPER_CHAR_LIMIT →
      (web_scraper_tool url (FetchOutcome.success raw)).1 = cleanPipeline raw) := by
  constructor
  · intro h
    simp [web_scraper_tool, hurl, limitScraperOutput, h]
  · intro h
    simp [web_scraper_tool, hurl, limitScraperOutput, Nat.not_lt.mpr h]

/-- Splitting a terminator-free uniform page leaves it whole. -/
theorem splitLinesGo_rep (n : Nat) : ∀ acc : PyStr,
    splitLinesGo (List.replicate n 'a') acc =
      [acc.reverse ++ List.replicate n 'a'] := by
  induction n with
  | zero => intro acc; simp [splitLinesGo]
  | succ k ih =>
    intro acc
    have h1 : splitLinesGo (List.replicate (k + 1) 'a') acc =
        splitLinesGo (List.replicate k 'a') ('a' :: acc) := rfl
    rw [h1, ih]
    simp [List.replicate_succ]

/-- Splitting a double-space-free uniform page leaves it whole. -/
theorem splitTwoSpacesGo_rep (n : Nat) : ∀ acc : PyStr,
    splitTwoSpacesGo (List.replicate n 'a') acc =
      [acc.reverse ++ List.replicate n 'a'] := by
  induction n with
  | zero => intro acc; simp [splitTwoSpacesGo]
  | succ k ih =>
    intro acc
    have h1 : splitTwoSpacesGo (List.replicate (k + 1) 'a') acc =
        splitTwoSpacesGo (List.replicate k 'a') ('a' :: acc) := rfl
    rw [h1, ih]
    simp [List.replicate_succ]

/-- Stripping a whitespace-free uniform page leaves it unchanged. -/
theorem pyStrip_rep (n : Nat) :
    pyStrip (List.replicate n 'a') = List.replicate n 'a' := by
  have hdrop : List.dropWhile isPySpace (List.replicate n 'a') =
      List.replicate n 'a' := by
    cases n with
    | zero => rfl
    | succ k =>
      have ha : isPySpace 'a' = false := rfl
      simp [List.replicate_succ, List.dropWhile_cons, ha]
  unfold pyStrip
  rw [hdrop, List.reverse_replicate, hdrop, List.reverse_replicate]

/-- The cleanup pipeline leaves a uniform nonempty page unchanged. -/
theorem cleanPipeline_rep (k : Nat) :
    cleanPipeline (List.replicate (k + 1) 'a') = List.replicate (k + 1) 'a' := by
  have h0 : pySplitLines (List.replicate (k + 1) 'a') =
      splitLinesGo (List.replicate (k + 1) 'a') [] := by
    rw [List.replicate_succ]
    rfl
  have hne : (List.replicate (k + 1) 'a').isEmpty = false := by
    simp [List.replicate_succ]
  unfold cleanPipeline
  rw [h0, splitLinesGo_rep]
  simp only [List.reverse_nil, List.nil_append, List.map_cons, List.map_nil,
    pyStrip_rep]
  rw [show splitTwoSpaces (List.replicate (k + 1) 'a') =
      splitTwoSpacesGo (List.replicate (k + 1) 'a') [] from rfl]
  rw [splitTwoSpacesGo_rep]
  simp only [List.reverse_nil, List.nil_append, List.map_cons, List.map_nil,
    pyStrip_rep, List.flatten_cons, List.flatten_nil, List.append_nil,
    List.filter_cons, List.filter_nil, hne, Bool.not_false, if_true]
  simp [List.intercalate]

/-- The uniform 5001-character page comes out of the cleanup pipeline
longer than the character budget. -/
theorem longPage_clean_long :
    (cleanPipeline longPage).length > WEB_SCRAPER_CHAR_LIMIT := by
  rw [show longPage = List.replicate (5000 + 1) 'a' from rfl, cleanPipeline_rep,
    List.length_replicate]
  norm_num [WEB_SCRAPER_CHAR_LIMIT]

/-- Witness for C8: a 5001-character page is truncated with the marker,
a short page is returned unchanged. -/
theorem c8_witness :
    validScraperUrl (pyOf "https://example.com") = true ∧
    (cleanPipeline longPage).length > WEB_SCRAPER_CHAR_LIMIT ∧
    (web_scraper_tool (pyOf "https://example.com")
        (FetchOutcome.success longPage)).1 =
      (cleanPipeline longPage).take WEB_SCRAPER_CHAR_LIMIT ++ truncationMarker ∧
    (cleanPipeline (pyOf "rock")).length ≤ WEB_SCRAPER_CHAR_LIMIT ∧
    (web_scraper_tool (pyOf "https://example.com")
        (FetchOutcome.success (pyOf "rock"))).1 = cleanPipeline (pyOf "rock") := by
  have hurl : validScraperUrl (pyOf "https://example.com") = true := by decide
  have hlong : (cleanPipeline longPage).length > WEB_SCRAPER_CHAR_LIMIT :=
    longPage_clean_long
  have hshort : (cleanPipeline (pyOf "rock")).length ≤ WEB_SCRAPER_CHAR_LIMIT := by
    decide
  exact ⟨hurl, hlong,
    (c8_truncation (pyOf "https://example.com") longPage hurl).1 hlong, hshort,
    (c8_truncation (pyOf "https://example.com") (pyOf "rock") hurl).2 hshort⟩

/-- Claim C9: an empty-string thread_id is treated exactly like an
absent one — the generated uuid is chosen, echoed in the start frame,
and the whole /chat response is identical in the two cases; a nonempty
thread_id is kept. -/
theorem c9_empty_thread_id_like_absent (freshUuid : String) :
    chooseThreadId (some "") freshUuid = freshUuid ∧
    chooseThreadId none freshUuid = freshUuid ∧
    chat (some "") freshUuid = chat none freshUuid ∧
    (chat (some "") freshUuid).head? = some (Frame.start freshUuid) := by
  refine ⟨?_, rfl, ?_, ?_⟩ <;> simp [chooseThreadId, chat, event_stream, run_sync_agent]

/-- Claim C10: web_scraper_tool is total over its listed failure modes
and its success output is bounded. A non-http or non-https url returns
the invalid-URL message with no network request, a timeout returns the
timeout message, any other requests-layer error (bad HTTP status from
raise_for_status included) returns the fetch-error message, and on
success the returned text never exceeds the character budget plus the
truncation marker length. -/
theorem c10_scraper_total_and_bounded (url : PyStr) (fetch : FetchOutcome) :
    (validScraperUrl url = false →
      web_scraper_tool url fetch = (invalidUrlMsg url, false)) ∧
    (validScraperUrl url = true →
      web_scraper_tool url FetchOutcome.timeout = (timeoutMsg url, true)) ∧
    (∀ e, validScraperUrl url = true →
      web_scraper_tool url (FetchOutcome.requestError e) =
        (fetchErrMsg url e, true)) ∧
    (∀ raw, validScraperUrl url = true →
      (web_scraper_tool url (FetchOutcome.success raw)).1.length ≤
        WEB_SCRAPER_CHAR_LIMIT + truncationMarker.length) := by
  refine ⟨fun h => by simp [web_scraper_tool, h],
    fun h => by simp [web_scraper_tool, h],
    fun e h => by simp [web_scraper_tool, h],
    fun raw h => ?_⟩
  simp only [web_scraper_tool, h, Bool.true_eq_false, if_false]
  unfold limitScraperOutput
  by_cases hl : (cleanPipeline raw).length > WEB_SCRAPER_CHAR_LIMIT
  · simp only [hl, if_true, List.length_append, List.length_take]
    omega
  · simp only [hl, if_false]
    omega

/-- Witness for C10 covering each failure mode and the length bound. -/
theorem c10_witness :
    validScraperUrl (pyOf "ftp://x") = false ∧
    web_scraper_tool (pyOf "ftp://x") (FetchOutcome.success (pyOf "a")) =
      (invalidUrlMsg (pyOf "ftp://x"), false) ∧
    validScraperUrl (pyOf "http://x") = true ∧
    web_scraper_tool (pyOf "http://x") FetchOutcome.timeout =
      (timeoutMsg (pyOf "http://x"), true) ∧
    web_scraper_tool (pyOf "http://x") (FetchOutcome.requestError
        (pyOf "404 Client Error")) =
      (fetchErrMsg (pyOf "http://x") (pyOf "404 Client Error"), true) ∧
    (web_scraper_tool (pyOf "http://x")
        (FetchOutcome.success (pyOf "a"))).1.length ≤
      WEB_SCRAPER_CHAR_LIMIT + truncationMarker.length := by
  refine ⟨by decide,
    (c10_scraper_total_and_bounded (pyOf "ftp://x")
      (FetchOutcome.success (pyOf "a"))).1 (by decide),
    by decide,
    (c10_scraper_total_and_bounded (pyOf "http://x")
      FetchOutcome.timeout).2.1 (by decide),
    (c10_scraper_total_and_bounded (pyOf "http://x")
      (FetchOutcome.requestError (pyOf "404 Client Error"))).2.2.1 _ (by decide),
    (c10_scraper_total_and_bounded (pyOf "http://x")
      (FetchOutcome.success (pyOf "a"))).2.2.2 _ (by decide)⟩
